import Mathlib

/-!
Verification of the bound computation of the pyloric-network prior (`pyloric/prior.py`).

Shallow embedding of the bound-selection and bound-assembly logic of
`pyloric/prior.py`.  Linear quantities are modelled exactly as rationals (`ℚ`);
the synaptic bounds, which the code optionally maps through the natural
logarithm, live in `ℝ` via `Real.log`.  NumPy boolean-mask indexing of an array
by a same-shaped mask returns the entries at `True` positions in row-major
order; it is embedded as `maskSelect` over row-major flattened lists.
-/

namespace Pyloric

/-- NumPy boolean-mask indexing on a 1D array (`vals[mask]`): keep the entries
at `True` positions, in order.  2D arrays are indexed after row-major
flattening (`List.flatten`), matching the row-major result order of NumPy. -/
def maskSelect {α : Type} : List Bool → List α → List α
  | b :: m, x :: xs => if b then x :: maskSelect m xs else maskSelect m xs
  | _, _ => []

/-- The unit-conversion constant `0.628e-3` from `_get_min_max_membrane_gbar`. -/
def unitScale : ℚ := 0.628e-3

/-- `membrane_cond_mins` of `_get_min_max_membrane_gbar`: the minimal values
used by Prinz et al. (rows PM, LP, PY), scaled by `0.628e-3`. -/
def membrane_cond_mins : List (List ℚ) :=
  [[100, 2.5, 2, 10, 5, 50, 0.01, 0.0],
   [100, 0.0, 4, 20, 0, 25, 0.0, 0.02],
   [100, 2.5, 0, 40, 0, 75, 0.0, 0.0]].map (List.map (· * unitScale))

/-- `membrane_cond_maxs` of `_get_min_max_membrane_gbar`: the maximal values
used by Prinz et al. (rows PM, LP, PY), scaled by `0.628e-3`. -/
def membrane_cond_maxs : List (List ℚ) :=
  [[400, 5, 6, 50, 10, 125, 0.01, 0.0],
   [100, 0, 10, 50, 5, 100, 0.05, 0.03],
   [500, 10, 2, 50, 0, 125, 0.05, 0.03]].map (List.map (· * unitScale))

/-- The `padding` vector of `_get_min_max_membrane_gbar`, scaled by `0.628e-3`. -/
def paddingVec : List ℚ :=
  [100, 2.5, 2, 10, 5, 25, 0.01, 0.01].map (· * unitScale)

/-- `membrane_cond_mins - padding`: NumPy broadcasts the 1×8 padding row,
subtracting it from every row of the 3×8 minimum table. -/
def paddedMins : List (List ℚ) :=
  membrane_cond_mins.map (fun row => List.zipWith (fun a p => a - p) row paddingVec)

/-- `membrane_cond_maxs + padding`: the 1×8 padding row added to every row of
the 3×8 maximum table. -/
def paddedMaxs : List (List ℚ) :=
  membrane_cond_maxs.map (fun row => List.zipWith (fun a p => a + p) row paddingVec)

/-- `membrane_cond_mins[membrane_cond_mins < 0.0] = 0.0`: clip a negative
entry up to zero. -/
def clipNeg (q : ℚ) : ℚ := if q < 0 then 0 else q

/-- The minimum table after padding and clipping at zero. -/
def clippedMins : List (List ℚ) := paddedMins.map (List.map clipNeg)

/-- `_get_min_max_membrane_gbar(selector)`: the scaled, padded, clipped 3×8
tables indexed by the boolean `selector` (row-major flattening). -/
def _get_min_max_membrane_gbar (selector : List (List Bool)) : List ℚ × List ℚ :=
  (maskSelect selector.flatten clippedMins.flatten,
   maskSelect selector.flatten paddedMaxs.flatten)

/-- `_get_min_max_synapse_gbar(min_val, max_val, log_space)`: 7 synaptic
channels, all sharing `min_val` and `max_val` except that the maximum of the first
channel is multiplied by 10; if `log_space`, both arrays are mapped through the
natural logarithm. -/
noncomputable def _get_min_max_synapse_gbar (min_val max_val : ℚ) (log_space : Bool) :
    List ℝ × List ℝ :=
  let syn_dim_mins : List ℚ := List.replicate 7 min_val
  let syn_dim_maxs : List ℚ := (List.replicate 7 max_val).set 0 (max_val * 10)
  if log_space then
    (syn_dim_mins.map (fun q => Real.log (q : ℝ)),
     syn_dim_maxs.map (fun q => Real.log (q : ℝ)))
  else
    (syn_dim_mins.map (fun q => (q : ℝ)), syn_dim_maxs.map (fun q => (q : ℝ)))

/-- `_select(minimum_val, maximum_val, selector)`: uniform arrays of the
size of the selector filled with the minimum resp. maximum, indexed by the boolean
selector. -/
def _select (minimum_val maximum_val : ℚ) (selector : List Bool) : List ℚ × List ℚ :=
  (maskSelect selector (List.replicate selector.length minimum_val),
   maskSelect selector (List.replicate selector.length maximum_val))

/-- The normalized `setups` dictionary that `prior_bounds` consumes: one
boolean mask per parameter group. -/
structure Setups where
  membrane_gbar : List (List Bool)
  Q10_gbar_mem : List Bool
  Q10_gbar_syn : List Bool
  Q10_tau_m : List Bool
  Q10_tau_h : List Bool
  Q10_tau_CaBuff : List Bool
  Q10_tau_syn : List Bool
deriving Repr, DecidableEq

/-- Embed a list of exact rationals into `ℝ`. -/
def ratList (l : List ℚ) : List ℝ := l.map Rat.cast

/-- `prior_bounds(setups, synapses_log_space)`: concatenation, in the fixed
order of the source, of membrane, synaptic and six Q10 bound groups.  Q10
conductance bounds are `[1.0, 2.0]`, Q10 time-constant bounds `[1.0, 4.0]`,
synapse bounds `(1e-08, 0.001)`. -/
noncomputable def prior_bounds (setups : Setups) (synapses_log_space : Bool) :
    List ℝ × List ℝ :=
  (ratList (_get_min_max_membrane_gbar setups.membrane_gbar).1
     ++ (_get_min_max_synapse_gbar 1e-8 0.001 synapses_log_space).1
     ++ ratList (_select 1 2 setups.Q10_gbar_mem).1
     ++ ratList (_select 1 2 setups.Q10_gbar_syn).1
     ++ ratList (_select 1 4 setups.Q10_tau_m).1
     ++ ratList (_select 1 4 setups.Q10_tau_h).1
     ++ ratList (_select 1 4 setups.Q10_tau_CaBuff).1
     ++ ratList (_select 1 4 setups.Q10_tau_syn).1,
   ratList (_get_min_max_membrane_gbar setups.membrane_gbar).2
     ++ (_get_min_max_synapse_gbar 1e-8 0.001 synapses_log_space).2
     ++ ratList (_select 1 2 setups.Q10_gbar_mem).2
     ++ ratList (_select 1 2 setups.Q10_gbar_syn).2
     ++ ratList (_select 1 4 setups.Q10_tau_m).2
     ++ ratList (_select 1 4 setups.Q10_tau_h).2
     ++ ratList (_select 1 4 setups.Q10_tau_CaBuff).2
     ++ ratList (_select 1 4 setups.Q10_tau_syn).2)

/-- A value of the `setups` dictionary: a boolean mask, stored row-major as a
list of rows (a 1D mask is a single row). -/
abbrev SetupVal := List (List Bool)

/-- The `setups` / `customization` dictionary: an association list from group
name to mask, insertion-ordered like a Python `dict`. -/
abbrev SetupDict := List (String × SetupVal)

/-- Python `d.update(c)`: keys already present in `d` keep their position and
get the value from `c`; keys of `c` not in `d` are appended in order. -/
def dictUpdate (d c : SetupDict) : SetupDict :=
  d.map (fun kv =>
      match c.find? (fun kv2 => kv2.1 == kv.1) with
      | some kv2 => (kv.1, kv2.2)
      | none => kv)
    ++ c.filter (fun kv2 => !(d.any (fun kv => kv.1 == kv2.1)))

/-- Dictionary lookup with a default. -/
def dictGetD (d : SetupDict) (k : String) (v : SetupVal) : SetupVal :=
  match d.find? (fun kv => kv.1 == k) with
  | some kv => kv.2
  | none => v

/-- The default `setups` of `create_prior` (source lines 38–50): membrane
conductances all `True` (3×8), every Q10 mask all `False`. -/
def defaultSetupsDict : SetupDict :=
  [("membrane_gbar", List.replicate 3 (List.replicate 8 true)),
   ("Q10_gbar_mem", [List.replicate 8 false]),
   ("Q10_gbar_syn", [[false, false]]),
   ("Q10_tau_m", [[false]]),
   ("Q10_tau_h", [[false]]),
   ("Q10_tau_CaBuff", [[false]]),
   ("Q10_tau_syn", [[false, false]])]

/-- The group names of the fixed catalog (the keys of the default `setups`). -/
def recognizedKeys : List String :=
  ["membrane_gbar", "Q10_gbar_mem", "Q10_gbar_syn", "Q10_tau_m", "Q10_tau_h",
   "Q10_tau_CaBuff", "Q10_tau_syn"]

/-- Read the seven group masks `prior_bounds` consumes out of the dictionary
(1D masks are flattened back out of their row representation). -/
def setupsOfDict (d : SetupDict) : Setups where
  membrane_gbar := dictGetD d "membrane_gbar" []
  Q10_gbar_mem := (dictGetD d "Q10_gbar_mem" []).flatten
  Q10_gbar_syn := (dictGetD d "Q10_gbar_syn" []).flatten
  Q10_tau_m := (dictGetD d "Q10_tau_m" []).flatten
  Q10_tau_h := (dictGetD d "Q10_tau_h" []).flatten
  Q10_tau_CaBuff := (dictGetD d "Q10_tau_CaBuff" []).flatten
  Q10_tau_syn := (dictGetD d "Q10_tau_syn" []).flatten

/-- Modelled from the spec: `select_names` lives in `pyloric/utils.py`, which
is not under `src/`.  Per the error-handling design of the spec, a configuration
that supplies a group name not in the fixed catalog must fail fast
(UnrecognizedGroupKey) rather than be silently ignored; we model the name
key validation of the name resolver as a boolean check that every key of the merged
`setups` dictionary is recognized. -/
def select_names_ok (d : SetupDict) : Bool :=
  d.all (fun kv => decide (kv.1 ∈ recognizedKeys))

/-- Modelled from the spec: `BoxUniform` comes from the external `sbi`
package, specified only as a black-box capability; per the Prior Wrapper contract of
the spec, "both vectors must have identical length (construction
fails otherwise)". -/
def boxUniform_ok (lower upper : List ℝ) : Bool :=
  lower.length == upper.length

/-- `create_prior(lower_bound, upper_bound, customization, synapses_log_space)`
reduced to the data the claims are about: merge the customization into the
default `setups`, compute the prior bounds, substitute any explicitly supplied
bound vector, and build the wrapper.  The two failure points are the modelled
name-resolver key validation and the modelled `BoxUniform` length check; the
in-`src` code itself raises nothing. -/
noncomputable def create_prior (lower_bound upper_bound : Option (List ℝ))
    (customization : SetupDict) (synapses_log_space : Bool) :
    Except String (List ℝ × List ℝ) :=
  let setups := dictUpdate defaultSetupsDict customization
  let bounds := prior_bounds (setupsOfDict setups) synapses_log_space
  let lower := lower_bound.getD bounds.1
  let upper := upper_bound.getD bounds.2
  if select_names_ok setups then
    if boxUniform_ok lower upper then Except.ok (lower, upper)
    else Except.error "BoxUniform: bound length mismatch"
  else Except.error "select_names: unrecognized group key"

/-- The default `Setups` (empty customization). -/
def defaultSetups : Setups := setupsOfDict defaultSetupsDict

/-- The bounds `create_prior` computes for a given customization before any
explicit override. -/
noncomputable def computedBounds (customization : SetupDict)
    (synapses_log_space : Bool) : List ℝ × List ℝ :=
  prior_bounds (setupsOfDict (dictUpdate defaultSetupsDict customization))
    synapses_log_space

/-- Number of `True` entries of a mask. -/
def countTrue (l : List Bool) : Nat := (l.filter id).length

/-- Total number of active scalar parameters implied by a `setups`
configuration: the `True` counts of the seven masks plus the 7 always-active
synaptic channels (the synapse group has no mask). -/
def totalActiveCount (s : Setups) : Nat :=
  countTrue s.membrane_gbar.flatten + 7 + countTrue s.Q10_gbar_mem
    + countTrue s.Q10_gbar_syn + countTrue s.Q10_tau_m + countTrue s.Q10_tau_h
    + countTrue s.Q10_tau_CaBuff + countTrue s.Q10_tau_syn

/-- A membrane mask NumPy accepts as an index of the 3×8 tables: exactly 3
rows of 8 entries. -/
def ValidMembrane (m : List (List Bool)) : Prop :=
  m.length = 3 ∧ ∀ r ∈ m, r.length = 8

instance (m : List (List Bool)) : Decidable (ValidMembrane m) := by
  unfold ValidMembrane; infer_instance

theorem maskSelect_mem {α : Type} :
    ∀ (m : List Bool) (l : List α) (x : α), x ∈ maskSelect m l → x ∈ l
  | b :: m, y :: ys, x, hx => by
    by_cases hb : b
    · simp only [maskSelect, hb, if_true, List.mem_cons] at hx
      rcases hx with hx | hx
      · exact hx ▸ List.mem_cons_self y ys
      · exact List.mem_cons_of_mem y (maskSelect_mem m ys x hx)
    · simp only [maskSelect, hb, if_false] at hx
      exact List.mem_cons_of_mem y (maskSelect_mem m ys x hx)
  | [], l, x, hx => by simp [maskSelect] at hx
  | b :: m, [], x, hx => by simp [maskSelect] at hx

theorem maskSelect_forall₂ {α β : Type} {R : α → β → Prop} :
    ∀ (m : List Bool) {l₁ : List α} {l₂ : List β}, List.Forall₂ R l₁ l₂ →
      List.Forall₂ R (maskSelect m l₁) (maskSelect m l₂)
  | [], _, _, _ => List.Forall₂.nil
  | _ :: _, _, _, List.Forall₂.nil => List.Forall₂.nil
  | b :: m, _, _, List.Forall₂.cons h hs => by
    by_cases hb : b
    · simpa only [maskSelect, hb, if_true] using
        List.Forall₂.cons h (maskSelect_forall₂ m hs)
    · simpa only [maskSelect, hb, if_false] using maskSelect_forall₂ m hs

theorem countTrue_cons (b : Bool) (m : List Bool) :
    countTrue (b :: m) = (if b then 1 else 0) + countTrue m := by
  by_cases hb : b <;> simp [countTrue, List.filter_cons, hb, Nat.add_comm]

theorem maskSelect_length {α : Type} :
    ∀ (m : List Bool) (l : List α), m.length = l.length →
      (maskSelect m l).length = countTrue m
  | [], [], _ => rfl
  | b :: m, y :: ys, h => by
    have h' : m.length = ys.length := Nat.succ_injective h
    have ih := maskSelect_length m ys h'
    by_cases hb : b <;> (simp [maskSelect, hb, countTrue_cons, ih]; try omega)
  | [], _ :: _, h => by simp at h
  | _ :: _, [], h => by simp at h

theorem ratList_length (l : List ℚ) : (ratList l).length = l.length :=
  List.length_map l _

theorem ratList_forall₂ {l₁ l₂ : List ℚ} (h : List.Forall₂ (· ≤ ·) l₁ l₂) :
    List.Forall₂ (· ≤ ·) (ratList l₁) (ratList l₂) := by
  induction h with
  | nil => exact List.Forall₂.nil
  | cons hab _ ih => exact List.Forall₂.cons (Rat.cast_le.mpr hab) ih

theorem forall₂_replicate_le {a c : ℚ} (h : a ≤ c) :
    ∀ n, List.Forall₂ (· ≤ ·) (List.replicate n a) (List.replicate n c)
  | 0 => List.Forall₂.nil
  | n + 1 => List.Forall₂.cons h (forall₂_replicate_le h n)

theorem select_forall₂ (a c : ℚ) (h : a ≤ c) (m : List Bool) :
    List.Forall₂ (· ≤ ·) (_select a c m).1 (_select a c m).2 :=
  maskSelect_forall₂ m (forall₂_replicate_le h m.length)

theorem select_length_fst (a c : ℚ) (m : List Bool) :
    (_select a c m).1.length = countTrue m :=
  maskSelect_length m _ (by simp)

theorem select_length_snd (a c : ℚ) (m : List Bool) :
    (_select a c m).2.length = countTrue m :=
  maskSelect_length m _ (by simp)

theorem clippedMins_flatten_nonneg : ∀ x ∈ clippedMins.flatten, 0 ≤ x := by
  norm_num [clippedMins, paddedMins, membrane_cond_mins, paddingVec, unitScale, clipNeg]

theorem clippedMins_le_paddedMaxs :
    List.Forall₂ (· ≤ ·) clippedMins.flatten paddedMaxs.flatten := by
  norm_num [clippedMins, paddedMins, paddedMaxs, membrane_cond_mins,
    membrane_cond_maxs, paddingVec, unitScale, clipNeg, List.forall₂_cons]

theorem clippedMins_flatten_length : clippedMins.flatten.length = 24 := rfl

theorem paddedMaxs_flatten_length : paddedMaxs.flatten.length = 24 := rfl

theorem validMembrane_flatten_length {m : List (List Bool)}
    (h : ValidMembrane m) : m.flatten.length = 24 := by
  obtain ⟨h3, h8⟩ := h
  match m, h3 with
  | [a, b, c], _ =>
    simp [h8 a (by simp), h8 b (by simp), h8 c (by simp)]

theorem synapse_length_fst (b : Bool) :
    (_get_min_max_synapse_gbar 1e-8 0.001 b).1.length = 7 := by
  cases b <;> simp [_get_min_max_synapse_gbar]

theorem synapse_length_snd (b : Bool) :
    (_get_min_max_synapse_gbar 1e-8 0.001 b).2.length = 7 := by
  cases b <;> simp [_get_min_max_synapse_gbar]

theorem synapse_forall₂ (b : Bool) :
    List.Forall₂ (· ≤ ·) (_get_min_max_synapse_gbar 1e-8 0.001 b).1
      (_get_min_max_synapse_gbar 1e-8 0.001 b).2 := by
  cases b <;>
    norm_num [_get_min_max_synapse_gbar, List.replicate, List.set, List.forall₂_cons]
  constructor <;> exact Real.log_le_log (by norm_num) (by norm_num)

theorem map_exp_log : ∀ (l : List ℚ), (∀ q ∈ l, 0 < q) →
    (l.map (fun q => Real.log (q : ℝ))).map Real.exp = l.map (fun q => (q : ℝ))
  | [], _ => rfl
  | q :: l, h => by
    have hq : (0 : ℚ) < q := h q (List.mem_cons_self q l)
    have ih := map_exp_log l (fun x hx => h x (List.mem_cons_of_mem q hx))
    show Real.exp (Real.log (q : ℝ)) :: (l.map (fun x => Real.log (x : ℝ))).map Real.exp
        = (q : ℝ) :: l.map (fun x => (x : ℝ))
    rw [ih, Real.exp_log (by exact_mod_cast hq)]

/-- The `setups` resulting from a customization that switches every membrane
conductance off and leaves every other group at its default. -/
def noMembraneSetups : Setups where
  membrane_gbar := List.replicate 3 (List.replicate 8 false)
  Q10_gbar_mem := List.replicate 8 false
  Q10_gbar_syn := [false, false]
  Q10_tau_m := [false]
  Q10_tau_h := [false]
  Q10_tau_CaBuff := [false]
  Q10_tau_syn := [false, false]

/-- The customization dictionary that excludes all membrane conductances. -/
def noMembraneCustomization : SetupDict :=
  [("membrane_gbar", List.replicate 3 (List.replicate 8 false))]

theorem prior_bounds_noMembrane :
    prior_bounds noMembraneSetups true
      = (List.replicate 7 (Real.log 1e-8),
         [Real.log 1e-2, Real.log 1e-3, Real.log 1e-3, Real.log 1e-3,
          Real.log 1e-3, Real.log 1e-3, Real.log 1e-3]) := by
  norm_num [prior_bounds, noMembraneSetups, _get_min_max_membrane_gbar,
    _get_min_max_synapse_gbar, _select, maskSelect, ratList, List.replicate,
    List.set, clippedMins, paddedMins, paddedMaxs, membrane_cond_mins,
    membrane_cond_maxs, paddingVec, unitScale, clipNeg]

theorem prior_bounds_def (s : Setups) (b : Bool) :
    prior_bounds s b
      = (ratList (_get_min_max_membrane_gbar s.membrane_gbar).1
           ++ (_get_min_max_synapse_gbar 1e-8 0.001 b).1
           ++ ratList (_select 1 2 s.Q10_gbar_mem).1
           ++ ratList (_select 1 2 s.Q10_gbar_syn).1
           ++ ratList (_select 1 4 s.Q10_tau_m).1
           ++ ratList (_select 1 4 s.Q10_tau_h).1
           ++ ratList (_select 1 4 s.Q10_tau_CaBuff).1
           ++ ratList (_select 1 4 s.Q10_tau_syn).1,
         ratList (_get_min_max_membrane_gbar s.membrane_gbar).2
           ++ (_get_min_max_synapse_gbar 1e-8 0.001 b).2
           ++ ratList (_select 1 2 s.Q10_gbar_mem).2
           ++ ratList (_select 1 2 s.Q10_gbar_syn).2
           ++ ratList (_select 1 4 s.Q10_tau_m).2
           ++ ratList (_select 1 4 s.Q10_tau_h).2
           ++ ratList (_select 1 4 s.Q10_tau_CaBuff).2
           ++ ratList (_select 1 4 s.Q10_tau_syn).2) := rfl

/-! ## Claim theorems -/

/-- C1: For every 3×8 boolean membrane mask, the membrane-conductance
contribution to the bounds equals the fixed reference tables scaled by
`0.628e-3`, padded by the unit-scaled 1×8 padding vector (subtracted from
every row of the minimum table, added to every row of the maximum table),
the minimum table clipped at zero, and only the `True` cells kept in
row-major order; in particular every selected membrane lower bound is
nonnegative. -/
theorem membrane_bounds_spec (selector : List (List Bool))
    (_h : ValidMembrane selector) :
    (_get_min_max_membrane_gbar selector).1
      = maskSelect selector.flatten clippedMins.flatten
  ∧ (_get_min_max_membrane_gbar selector).2
      = maskSelect selector.flatten paddedMaxs.flatten
  ∧ ∀ x ∈ (_get_min_max_membrane_gbar selector).1, 0 ≤ x :=
  ⟨rfl, rfl, fun x hx => clippedMins_flatten_nonneg x (maskSelect_mem _ _ _ hx)⟩

theorem membrane_bounds_spec_witness :
    ValidMembrane (List.replicate 3 (List.replicate 8 true))
  ∧ ∀ x ∈ (_get_min_max_membrane_gbar (List.replicate 3 (List.replicate 8 true))).1,
      0 ≤ x :=
  ⟨by decide, (membrane_bounds_spec _ (by decide)).2.2⟩

/-- C3: With the default configuration (empty customization,
`synapses_log_space = true`) the bound vectors have length exactly 31:
24 membrane entries plus 7 synaptic entries, all six Q10 groups contributing
nothing. -/
theorem default_config_has_31_parameters :
    (prior_bounds defaultSetups true).1.length = 31
  ∧ (prior_bounds defaultSetups true).2.length = 31
  ∧ (_get_min_max_membrane_gbar defaultSetups.membrane_gbar).1.length = 24
  ∧ (_get_min_max_synapse_gbar 1e-8 0.001 true).1.length = 7
  ∧ (_select 1 2 defaultSetups.Q10_gbar_mem).1 = []
  ∧ (_select 1 2 defaultSetups.Q10_gbar_syn).1 = []
  ∧ (_select 1 4 defaultSetups.Q10_tau_m).1 = []
  ∧ (_select 1 4 defaultSetups.Q10_tau_h).1 = []
  ∧ (_select 1 4 defaultSetups.Q10_tau_CaBuff).1 = []
  ∧ (_select 1 4 defaultSetups.Q10_tau_syn).1 = [] :=
  ⟨rfl, rfl, rfl, rfl, rfl, rfl, rfl, rfl, rfl, rfl⟩

/-- C4: For every valid mask configuration the lower and upper bound vectors
have equal length, and that length is the total count of `True` entries
across all selection masks (the unmasked synapse group always contributing
its 7 channels). -/
theorem bounds_length_eq_mask_count (s : Setups) (b : Bool)
    (h : ValidMembrane s.membrane_gbar) :
    (prior_bounds s b).1.length = (prior_bounds s b).2.length
  ∧ (prior_bounds s b).1.length = totalActiveCount s := by
  have hm : s.membrane_gbar.flatten.length = 24 := validMembrane_flatten_length h
  have h1 : (maskSelect s.membrane_gbar.flatten clippedMins.flatten).length
      = countTrue s.membrane_gbar.flatten :=
    maskSelect_length _ _ (by rw [hm, clippedMins_flatten_length])
  have h2 : (maskSelect s.membrane_gbar.flatten paddedMaxs.flatten).length
      = countTrue s.membrane_gbar.flatten :=
    maskSelect_length _ _ (by rw [hm, paddedMaxs_flatten_length])
  constructor <;>
    (simp [prior_bounds, _get_min_max_membrane_gbar, ratList, h1, h2,
       synapse_length_fst, synapse_length_snd, select_length_fst,
       select_length_snd, totalActiveCount]
     try omega)

theorem bounds_length_eq_mask_count_witness :
    ValidMembrane defaultSetups.membrane_gbar
  ∧ (prior_bounds defaultSetups true).1.length = totalActiveCount defaultSetups :=
  ⟨by decide, (bounds_length_eq_mask_count defaultSetups true (by decide)).2⟩

/-- C5: For every valid mask configuration and either value of
`synapses_log_space`, the bound vectors satisfy `lower[i] ≤ upper[i]`
entrywise. -/
theorem lower_le_upper (s : Setups) (b : Bool)
    (_h : ValidMembrane s.membrane_gbar) :
    List.Forall₂ (· ≤ ·) (prior_bounds s b).1 (prior_bounds s b).2 := by
  rw [prior_bounds_def]
  dsimp only
  exact List.rel_append
    (List.rel_append
      (List.rel_append
        (List.rel_append
          (List.rel_append
            (List.rel_append
              (List.rel_append
                (ratList_forall₂ (maskSelect_forall₂ _ clippedMins_le_paddedMaxs))
                (synapse_forall₂ b))
              (ratList_forall₂ (select_forall₂ 1 2 (by norm_num) _)))
            (ratList_forall₂ (select_forall₂ 1 2 (by norm_num) _)))
          (ratList_forall₂ (select_forall₂ 1 4 (by norm_num) _)))
        (ratList_forall₂ (select_forall₂ 1 4 (by norm_num) _)))
      (ratList_forall₂ (select_forall₂ 1 4 (by norm_num) _)))
    (ratList_forall₂ (select_forall₂ 1 4 (by norm_num) _))

theorem lower_le_upper_witness :
    ValidMembrane defaultSetups.membrane_gbar
  ∧ List.Forall₂ (· ≤ ·) (prior_bounds defaultSetups true).1
      (prior_bounds defaultSetups true).2 :=
  ⟨by decide, lower_le_upper defaultSetups true (by decide)⟩

/-- C6: The synaptic bounds computed in linear space are exactly the
elementwise exponential of the synaptic bounds computed in log space, all
other inputs held equal. -/
theorem synapse_linear_is_exp_of_log :
    (_get_min_max_synapse_gbar 1e-8 0.001 false).1
      = ((_get_min_max_synapse_gbar 1e-8 0.001 true).1).map Real.exp
  ∧ (_get_min_max_synapse_gbar 1e-8 0.001 false).2
      = ((_get_min_max_synapse_gbar 1e-8 0.001 true).2).map Real.exp :=
  ⟨(map_exp_log _ (by norm_num)).symm,
   (map_exp_log _ (by norm_num [List.replicate, List.set])).symm⟩

/-- C7: The global bound vectors are the order-preserving concatenation of
the per-group selected bound vectors in the canonical order: membrane
conductances, synaptic conductances, Q10 membrane conductance, Q10 synaptic
conductance, Q10 membrane time constant, Q10 inactivation time constant,
Q10 calcium-buffer time constant, Q10 synapse time constant. -/
theorem bounds_canonical_order (s : Setups) (b : Bool) :
    prior_bounds s b
      = (ratList (_get_min_max_membrane_gbar s.membrane_gbar).1
           ++ (_get_min_max_synapse_gbar 1e-8 0.001 b).1
           ++ ratList (_select 1 2 s.Q10_gbar_mem).1
           ++ ratList (_select 1 2 s.Q10_gbar_syn).1
           ++ ratList (_select 1 4 s.Q10_tau_m).1
           ++ ratList (_select 1 4 s.Q10_tau_h).1
           ++ ratList (_select 1 4 s.Q10_tau_CaBuff).1
           ++ ratList (_select 1 4 s.Q10_tau_syn).1,
         ratList (_get_min_max_membrane_gbar s.membrane_gbar).2
           ++ (_get_min_max_synapse_gbar 1e-8 0.001 b).2
           ++ ratList (_select 1 2 s.Q10_gbar_mem).2
           ++ ratList (_select 1 2 s.Q10_gbar_syn).2
           ++ ratList (_select 1 4 s.Q10_tau_m).2
           ++ ratList (_select 1 4 s.Q10_tau_h).2
           ++ ratList (_select 1 4 s.Q10_tau_CaBuff).2
           ++ ratList (_select 1 4 s.Q10_tau_syn).2) := rfl

/-- C2: With customization excluding all membrane conductances and the
default `synapses_log_space = true` and default Q10 masks, the prior has
exactly the 7 synaptic parameters, with lower bound `log(1e-8)` repeated 7
times and upper bound `[log(1e-2), log(1e-3), …, log(1e-3)]`. -/
theorem no_membrane_prior_is_synaptic :
    create_prior none none noMembraneCustomization true
      = Except.ok (List.replicate 7 (Real.log 1e-8),
          [Real.log 1e-2, Real.log 1e-3, Real.log 1e-3, Real.log 1e-3,
           Real.log 1e-3, Real.log 1e-3, Real.log 1e-3]) := by
  have hsetups : setupsOfDict (dictUpdate defaultSetupsDict noMembraneCustomization)
      = noMembraneSetups := rfl
  have hok : select_names_ok (dictUpdate defaultSetupsDict noMembraneCustomization)
      = true := rfl
  simp only [create_prior, hsetups, hok, Option.getD_none, if_true,
    prior_bounds_noMembrane]
  rfl

/-- C8: A customization supplying a group name outside the fixed catalog
makes construction fail fast (via the spec-modelled name-resolver key
validation) rather than silently using defaults. -/
theorem unrecognized_key_fails (customization : SetupDict) (k : String)
    (v : SetupVal) (hmem : (k, v) ∈ customization) (hk : k ∉ recognizedKeys)
    (lb ub : Option (List ℝ)) (b : Bool) :
    create_prior lb ub customization b
      = Except.error "select_names: unrecognized group key" := by
  have hdef : defaultSetupsDict.any (fun kv => kv.1 == k) = false := by
    rw [List.any_eq_false]
    intro kv hkv heq
    apply hk
    have hk1 : kv.1 = k := by simpa using heq
    rw [← hk1]
    simp only [defaultSetupsDict, List.mem_cons, List.not_mem_nil, or_false] at hkv
    rcases hkv with h | h | h | h | h | h | h <;> (rw [h]; simp [recognizedKeys])
  have hmemupd : (k, v) ∈ dictUpdate defaultSetupsDict customization :=
    List.mem_append_right _ (List.mem_filter.mpr ⟨hmem, by simp [hdef]⟩)
  have hko : select_names_ok (dictUpdate defaultSetupsDict customization) = false := by
    rw [select_names_ok, List.all_eq_false]
    exact ⟨(k, v), hmemupd, by simpa using hk⟩
  simp [create_prior, hko]

theorem unrecognized_key_fails_witness :
    create_prior none none [("foo", [[true]])] true
      = Except.error "select_names: unrecognized group key" :=
  unrecognized_key_fails [("foo", [[true]])] "foo" [[true]]
    (by decide) (by decide) none none true

/-- C9 counterexample: supplying both explicit bound vectors with the same
wrong length (1, while the default mask configuration implies 31 active
parameters) constructs successfully — the claim that construction fails fast
whenever the length of an explicit bound vector differs from the mask-implied
active-parameter count is false on the code. -/
theorem equal_length_wrong_size_accepted :
    create_prior (some [0]) (some [1]) [] true = Except.ok ([0], [1])
  ∧ (computedBounds [] true).1.length = 31
  ∧ [(0 : ℝ)].length ≠ 31 :=
  ⟨rfl, rfl, by decide⟩

/-- C9 amended: construction fails fast exactly when the two bound vectors
disagree in length (via the modelled `BoxUniform` length check) — so a single
supplied vector whose length differs from the computed opposite side fails,
while two supplied vectors of equal length are accepted as-is with no check
against the mask-implied active-parameter count; nothing is truncated or
padded. -/
theorem bound_length_validation (v w : List ℝ) (hv : v.length ≠ 31)
    (hw : w.length = v.length) :
    create_prior (some v) none [] true
      = Except.error "BoxUniform: bound length mismatch"
  ∧ create_prior none (some v) [] true
      = Except.error "BoxUniform: bound length mismatch"
  ∧ create_prior (some v) (some w) [] true = Except.ok (v, w) := by
  have hu : (prior_bounds (setupsOfDict (dictUpdate defaultSetupsDict [])) true).2.length
      = 31 := rfl
  have hl : (prior_bounds (setupsOfDict (dictUpdate defaultSetupsDict [])) true).1.length
      = 31 := rfl
  have hok : select_names_ok (dictUpdate defaultSetupsDict []) = true := rfl
  have hv2 : (31 : Nat) ≠ v.length := fun hcon => hv hcon.symm
  refine ⟨?_, ?_, ?_⟩ <;>
    simp [create_prior, hok, boxUniform_ok, hu, hl, hv, hv2, hw, Option.getD]

theorem bound_length_validation_witness :
    create_prior (some [0]) none [] true
      = Except.error "BoxUniform: bound length mismatch"
  ∧ create_prior none (some [0]) [] true
      = Except.error "BoxUniform: bound length mismatch"
  ∧ create_prior (some [0]) (some [0]) [] true = Except.ok ([0], [0]) :=
  bound_length_validation [0] [0] (by decide) rfl

/-- C10: Supplying exactly one explicit bound vector uses it as-is for that
side while the other side falls back to the computed default bounds;
overriding one side never affects the values of the other side. -/
theorem one_sided_override_independent (v : List ℝ) (c : SetupDict) (b : Bool)
    (hok : select_names_ok (dictUpdate defaultSetupsDict c) = true)
    (h1 : v.length = (computedBounds c b).2.length)
    (h2 : v.length = (computedBounds c b).1.length) :
    create_prior (some v) none c b = Except.ok (v, (computedBounds c b).2)
  ∧ create_prior none (some v) c b = Except.ok ((computedBounds c b).1, v) := by
  simp only [computedBounds] at h1 h2
  have h3 := h2.symm.trans h1
  constructor <;>
    simp [create_prior, hok, boxUniform_ok, h1, h2, h3, computedBounds, Option.getD]

theorem one_sided_override_independent_witness :
    create_prior (some (List.replicate 31 0)) none [] true
      = Except.ok (List.replicate 31 0, (computedBounds [] true).2)
  ∧ create_prior none (some (List.replicate 31 0)) [] true
      = Except.ok ((computedBounds [] true).1, List.replicate 31 0) :=
  one_sided_override_independent (List.replicate 31 0) [] true rfl rfl rfl

end Pyloric
